import Mathlib

/-!
Verification of the scroll-synchronization and file-upload logic of the
markdown editor (src/app/page.tsx, `MarkdownEditor`).

The embedding mirrors the source:
  * a scrollable surface carries `scrollTop` (a CSSOM double, modelled as ℚ)
    and the integer DOM measurements `scrollHeight` and `clientHeight`;
  * `scrollPercentage` and `targetScrollTop` are the two arithmetic
    expressions of `syncScroll` (page.tsx lines 228-233);
  * `syncScroll` is the whole handler (lines 218-263): the `isScrolling`
    re-entrancy guard, the two `source` branches guarded by the presence of
    both refs, the `scrollTo` write to the opposite pane, and the
    `setTimeout(() => setIsScrolling(false), 50)` modelled as recording the
    scheduled release instant `now + 50`;
  * `handleFileUpload` (lines 265-295) with the `FileReader` read modelled
    as synchronously yielding the file's text content.
All functions are total: division on ℚ is total in Lean, matching the fact
that the JavaScript expressions never throw.
-/

/-- A scrollable surface as `syncScroll` reads it from the DOM:
`scrollTop` is a double, `scrollHeight` and `clientHeight` are integers. -/
structure Surface where
  scrollTop : ℚ
  scrollHeight : ℤ
  clientHeight : ℤ
deriving DecidableEq

/-- Lines 228-230: `scrollTop / Math.max(1, scrollHeight - clientHeight)`. -/
def scrollPercentage (src : Surface) : ℚ :=
  src.scrollTop / ((max 1 (src.scrollHeight - src.clientHeight) : ℤ) : ℚ)

/-- Lines 231-233: `scrollPercentage * Math.max(0, scrollHeight - clientHeight)`
of the target surface. -/
def targetScrollTop (src tgt : Surface) : ℚ :=
  scrollPercentage src * ((max 0 (tgt.scrollHeight - tgt.clientHeight) : ℤ) : ℚ)

/-- The `source` argument of `syncScroll`: `'editor' | 'preview'`. -/
inductive Pane where
  | editor
  | preview
deriving DecidableEq

/-- The component state touched by the handlers: the `markdown` buffer, the
`isScrolling` lock, the two refs (`none` models an unmounted surface, i.e. a
null `ref.current`), the scheduled lock-release instant set by `setTimeout`,
and the current instant of the event-loop clock. -/
structure EditorState where
  markdown : String
  isScrolling : Bool
  editorRef : Option Surface
  previewRef : Option Surface
  releaseAt : Option ℕ
  now : ℕ
deriving DecidableEq

/-- Lines 218-263.  Guard on `isScrolling`; set the lock; if the source pane
is the editor and both refs are non-null, write the computed offset to the
preview (and symmetrically for the preview source); finally schedule the
lock release 50 ms from now. -/
def syncScroll (source : Pane) (s : EditorState) : EditorState :=
  if s.isScrolling then s
  else
    let s1 : EditorState := { s with isScrolling := true }
    let s2 : EditorState :=
      match source, s.editorRef, s.previewRef with
      | Pane.editor, some editor, some preview =>
          { s1 with previewRef := some ({ preview with scrollTop := targetScrollTop editor preview }) }
      | Pane.preview, some editor, some preview =>
          { s1 with editorRef := some ({ editor with scrollTop := targetScrollTop preview editor }) }
      | _, _, _ => s1
    { s2 with releaseAt := some (s.now + 50) }

/-- The surface the scroll event originated from. -/
def sourceRef (source : Pane) (s : EditorState) : Option Surface :=
  match source with
  | Pane.editor => s.editorRef
  | Pane.preview => s.previewRef

/-- The opposite pane, whose offset `syncScroll` writes. -/
def targetRef (source : Pane) (s : EditorState) : Option Surface :=
  match source with
  | Pane.editor => s.previewRef
  | Pane.preview => s.editorRef

/-- An uploaded file as `handleFileUpload` sees it: `name`, MIME `type`,
and the text content the `FileReader` would deliver. -/
structure MDFile where
  name : String
  type : String
  content : String
deriving DecidableEq

/-- The variant of a toast notice (`destructive` marks failure). -/
inductive ToastVariant where
  | default
  | destructive
deriving DecidableEq

/-- A toast notice as produced by the handlers. -/
structure Toast where
  title : String
  description : String
  variant : ToastVariant
deriving DecidableEq

/-- The success notice of lines 276-279. -/
def uploadSuccessToast : Toast :=
  { title := "File uploaded"
    description := "Markdown file has been loaded successfully."
    variant := ToastVariant.default }

/-- The failure notice of lines 283-287. -/
def invalidFileToast : Toast :=
  { title := "Invalid file"
    description := "Please upload a .md or .markdown file."
    variant := ToastVariant.destructive }

/-- JavaScript `s.endsWith(post)`: `post` is a suffix of `s`'s character
sequence (kernel-evaluable, unlike `String.endsWith`). -/
def strEndsWith (s post : String) : Bool :=
  post.data.isSuffixOf s.data

/-- Lines 265-295: if a file is present and its MIME type is
`text/markdown` or its name ends in `.md`, the buffer becomes the file's
content and a success toast fires; otherwise the buffer is unchanged and a
destructive toast fires.  Returns the new buffer and the toast. -/
def handleFileUpload (file : Option MDFile) (markdown : String) :
    String × Toast :=
  match file with
  | some f =>
      if f.type == "text/markdown" || strEndsWith f.name ".md" then
        (f.content, uploadSuccessToast)
      else
        (markdown, invalidFileToast)
  | none => (markdown, invalidFileToast)

/-- Sanity: the spec's symmetry scenario, source at 50% (offset 250, range
500), target range 1000, lands the target at 500. -/
theorem symmetry_scenario :
    targetScrollTop { scrollTop := 250, scrollHeight := 600, clientHeight := 100 }
      { scrollTop := 0, scrollHeight := 1100, clientHeight := 100 } = 500 := by
  norm_num [targetScrollTop, scrollPercentage]

/-- Claim C1 as stated is false: for a source with `scrollHeight =
`clientHeight` (zero range) the denominator floors to 1, so the computed
fraction equals the raw `scrollOffset`, not 0 regardless of it.  At
`scrollTop = 5`, `scrollHeight = clientHeight = 10` the fraction is 5 ≠ 0. -/
theorem C1_counterexample :
    ({ scrollTop := 5, scrollHeight := 10, clientHeight := 10 } : Surface).scrollHeight
        = ({ scrollTop := 5, scrollHeight := 10, clientHeight := 10 } : Surface).clientHeight
    ∧ scrollPercentage { scrollTop := 5, scrollHeight := 10, clientHeight := 10 } ≠ 0 := by
  refine ⟨rfl, ?_⟩
  norm_num [scrollPercentage]

/-- Claim C1, amended: when the source's `contentExtent` equals its
`viewportExtent`, the denominator is floored to 1 — so no division by zero
occurs and `scrollFraction = scrollOffset`; in particular the fraction is 0
whenever `scrollOffset = 0` (the only in-range offset for a zero range). -/
theorem scrollPercentage_zero_range (s : Surface)
    (h : s.scrollHeight = s.clientHeight) :
    max 1 (s.scrollHeight - s.clientHeight) = 1
    ∧ scrollPercentage s = s.scrollTop
    ∧ (s.scrollTop = 0 → scrollPercentage s = 0) := by
  have hr : s.scrollHeight - s.clientHeight = 0 := by omega
  have hm : max 1 (s.scrollHeight - s.clientHeight) = 1 := by omega
  refine ⟨hm, ?_, ?_⟩
  · rw [scrollPercentage, hm]
    norm_num
  · intro h0
    rw [scrollPercentage, hm, h0]
    norm_num

/-- Witness for `scrollPercentage_zero_range` at a concrete surface. -/
theorem scrollPercentage_zero_range_witness :
    ({ scrollTop := 0, scrollHeight := 10, clientHeight := 10 } : Surface).scrollHeight
        = ({ scrollTop := 0, scrollHeight := 10, clientHeight := 10 } : Surface).clientHeight
    ∧ scrollPercentage { scrollTop := 0, scrollHeight := 10, clientHeight := 10 } = 0 :=
  ⟨rfl, ((scrollPercentage_zero_range _ rfl).2.2 rfl)⟩

/-- Claim C2 as stated is false: `scrollOffset ≥ 0` and `contentExtent ≥
`viewportExtent` alone do not bound the fraction by 1.  At `scrollTop = 5`,
`scrollHeight = clientHeight = 10` (so both hypotheses hold) the computed
fraction is 5 ∉ [0, 1]. -/
theorem C2_counterexample :
    (0 : ℚ) ≤ ({ scrollTop := 5, scrollHeight := 10, clientHeight := 10 } : Surface).scrollTop
    ∧ ({ scrollTop := 5, scrollHeight := 10, clientHeight := 10 } : Surface).clientHeight
        ≤ ({ scrollTop := 5, scrollHeight := 10, clientHeight := 10 } : Surface).scrollHeight
    ∧ ¬ scrollPercentage { scrollTop := 5, scrollHeight := 10, clientHeight := 10 } ≤ 1 := by
  refine ⟨by norm_num, by norm_num, ?_⟩
  norm_num [scrollPercentage]

/-- Claim C2, amended: with the additional (in-range) hypothesis
`scrollOffset ≤ contentExtent − viewportExtent`, the computed fraction lies
in [0, 1]. -/
theorem scrollPercentage_mem_unit (s : Surface)
    (h0 : 0 ≤ s.scrollTop)
    (_hcv : s.clientHeight ≤ s.scrollHeight)
    (hin : s.scrollTop ≤ ((s.scrollHeight - s.clientHeight : ℤ) : ℚ)) :
    0 ≤ scrollPercentage s ∧ scrollPercentage s ≤ 1 := by
  have hd1 : (1 : ℚ) ≤ ((max 1 (s.scrollHeight - s.clientHeight) : ℤ) : ℚ) := by
    exact_mod_cast le_max_left 1 (s.scrollHeight - s.clientHeight)
  have hdpos : (0 : ℚ) < ((max 1 (s.scrollHeight - s.clientHeight) : ℤ) : ℚ) :=
    lt_of_lt_of_le zero_lt_one hd1
  constructor
  · exact div_nonneg h0 hdpos.le
  · rw [scrollPercentage, div_le_one hdpos]
    refine le_trans hin ?_
    exact_mod_cast le_max_right 1 (s.scrollHeight - s.clientHeight)

/-- Witness for `scrollPercentage_mem_unit` at offset 250 of range 500. -/
theorem scrollPercentage_mem_unit_witness :
    (0 : ℚ) ≤ ({ scrollTop := 250, scrollHeight := 600, clientHeight := 100 } : Surface).scrollTop
    ∧ (0 ≤ scrollPercentage { scrollTop := 250, scrollHeight := 600, clientHeight := 100 }
        ∧ scrollPercentage { scrollTop := 250, scrollHeight := 600, clientHeight := 100 } ≤ 1) :=
  ⟨by norm_num,
    scrollPercentage_mem_unit _ (by norm_num) (by norm_num) (by norm_num)⟩

/-- Claim C3: when the source sits at 100% of a positive scrollable range
(`scrollTop = scrollHeight − clientHeight > 0`), the computed target offset
is exactly the target's floored full range `max 0 (scrollHeight −
clientHeight)`, for every target surface — no overshoot. -/
theorem targetScrollTop_at_full_range (src tgt : Surface)
    (hpos : 0 < src.scrollHeight - src.clientHeight)
    (hfull : src.scrollTop = ((src.scrollHeight - src.clientHeight : ℤ) : ℚ)) :
    targetScrollTop src tgt
      = ((max 0 (tgt.scrollHeight - tgt.clientHeight) : ℤ) : ℚ) := by
  have hm : max 1 (src.scrollHeight - src.clientHeight)
      = src.scrollHeight - src.clientHeight := by omega
  have hne : ((src.scrollHeight - src.clientHeight : ℤ) : ℚ) ≠ 0 := by
    exact_mod_cast hpos.ne'
  rw [targetScrollTop, scrollPercentage, hfull, hm, div_self hne, one_mul]

/-- Witness for `targetScrollTop_at_full_range`: source at offset 500 of
range 500, target range 1000, lands exactly at 1000. -/
theorem targetScrollTop_at_full_range_witness :
    (0 : ℤ) < ({ scrollTop := 500, scrollHeight := 600, clientHeight := 100 } : Surface).scrollHeight
        - ({ scrollTop := 500, scrollHeight := 600, clientHeight := 100 } : Surface).clientHeight
    ∧ targetScrollTop { scrollTop := 500, scrollHeight := 600, clientHeight := 100 }
        { scrollTop := 0, scrollHeight := 1100, clientHeight := 100 }
      = ((max 0 ((1100 : ℤ) - 100) : ℤ) : ℚ) :=
  ⟨by norm_num,
    targetScrollTop_at_full_range _ _ (by norm_num) (by norm_num)⟩

/-- Claim C4: when the target's content is shorter than its viewport
(`scrollHeight < clientHeight`), the `max(0, …)` floor makes the computed
target offset 0, whatever the source fraction is. -/
theorem targetScrollTop_short_target (src tgt : Surface)
    (h : tgt.scrollHeight < tgt.clientHeight) :
    targetScrollTop src tgt = 0 := by
  have hm : max 0 (tgt.scrollHeight - tgt.clientHeight) = 0 := by omega
  rw [targetScrollTop, hm]
  norm_num

/-- Witness for `targetScrollTop_short_target` at a concrete pair. -/
theorem targetScrollTop_short_target_witness :
    ({ scrollTop := 0, scrollHeight := 30, clientHeight := 60 } : Surface).scrollHeight
        < ({ scrollTop := 0, scrollHeight := 30, clientHeight := 60 } : Surface).clientHeight
    ∧ targetScrollTop { scrollTop := 7, scrollHeight := 100, clientHeight := 50 }
        { scrollTop := 0, scrollHeight := 30, clientHeight := 60 } = 0 :=
  ⟨by norm_num, targetScrollTop_short_target _ _ (by norm_num)⟩

/-- Claim C5: while the lock is held (`isScrolling = true`) a call to
`syncScroll` returns the state unchanged — no surface's scroll position
changes and the scheduled release instant `releaseAt` is untouched. -/
theorem syncScroll_locked_noop (src : Pane) (s : EditorState)
    (h : s.isScrolling = true) : syncScroll src s = s := by
  simp [syncScroll, h]

/-- A concrete state holding the lock, for the re-entrancy witness. -/
def lockedState : EditorState :=
  { markdown := "x", isScrolling := true, editorRef := none, previewRef := none, releaseAt := some 3, now := 0 }

/-- Witness for `syncScroll_locked_noop` at a concrete locked state. -/
theorem syncScroll_locked_noop_witness :
    lockedState.isScrolling = true ∧ syncScroll Pane.editor lockedState = lockedState :=
  ⟨rfl, syncScroll_locked_noop Pane.editor lockedState rfl⟩

/-- A concrete unlocked state whose editor ref is null (unmounted). -/
def unmountedEditorState : EditorState :=
  { markdown := "", isScrolling := false, editorRef := none, previewRef := some ({ scrollTop := 0, scrollHeight := 40, clientHeight := 20 }), releaseAt := none, now := 0 }

/-- Claim C6 as stated is false: with the editor ref null the call is not a
no-op — it still flips the lock on and schedules the release, so the
resulting state differs from the input state. -/
theorem C6_counterexample :
    syncScroll Pane.editor unmountedEditorState ≠ unmountedEditorState := by
  intro h
  have := congrArg EditorState.isScrolling h
  simp [syncScroll, unmountedEditorState] at this

/-- Claim C6, amended: when either surface ref is null, `syncScroll`
changes no surface and leaves the markdown buffer alone (and, being a total
function, raises no error); it is not a full no-op, since the lock is still
set and the release scheduled. -/
theorem syncScroll_missing_surface (src : Pane) (s : EditorState)
    (h : s.editorRef = none ∨ s.previewRef = none) :
    (syncScroll src s).editorRef = s.editorRef
    ∧ (syncScroll src s).previewRef = s.previewRef
    ∧ (syncScroll src s).markdown = s.markdown := by
  obtain ⟨md, lock, eref, pref, rel, n⟩ := s
  cases src <;> cases lock <;> cases eref <;> cases pref <;>
    simp_all [syncScroll]

/-- A concrete unlocked state with a null editor ref and a live preview,
for the missing-surface witness. -/
def missingEditorState : EditorState :=
  { markdown := "m", isScrolling := false, editorRef := none, previewRef := some ({ scrollTop := 1, scrollHeight := 40, clientHeight := 20 }), releaseAt := none, now := 2 }

/-- Witness for `syncScroll_missing_surface` at a concrete state with a
null editor ref. -/
theorem syncScroll_missing_surface_witness :
    (missingEditorState.editorRef = none ∨ missingEditorState.previewRef = none)
    ∧ ((syncScroll Pane.preview missingEditorState).editorRef = missingEditorState.editorRef
      ∧ (syncScroll Pane.preview missingEditorState).previewRef = missingEditorState.previewRef
      ∧ (syncScroll Pane.preview missingEditorState).markdown = missingEditorState.markdown) :=
  ⟨Or.inl rfl, syncScroll_missing_surface Pane.preview missingEditorState (Or.inl rfl)⟩

/-- Claim C7: uploading `notes.md` with content `"# Hi"` makes the buffer
`"# Hi"` with the success toast, whatever MIME type the browser reports;
uploading `photo.png` with any non-markdown MIME type leaves the buffer
unchanged and produces the destructive invalid-file toast.  Both branches
are total — no error escapes the handler. -/
theorem handleFileUpload_scenarios :
    (∀ mime buf : String,
        handleFileUpload (some { name := "notes.md", type := mime, content := "# Hi" }) buf
          = ("# Hi", uploadSuccessToast))
    ∧ (∀ mime buf content : String, mime ≠ "text/markdown" →
        handleFileUpload (some { name := "photo.png", type := mime, content := content }) buf
          = (buf, invalidFileToast)) := by
  constructor
  · intro mime buf
    have hmd : strEndsWith "notes.md" ".md" = true := by decide
    simp [handleFileUpload, hmd]
  · intro mime buf content h
    have h1 : (mime == "text/markdown") = false := by
      simpa using h
    have h2 : strEndsWith "photo.png" ".md" = false := by decide
    simp [handleFileUpload, h1, h2]

/-- Witness for `handleFileUpload_scenarios` with MIME types
`text/plain` and `image/png`. -/
theorem handleFileUpload_scenarios_witness :
    handleFileUpload (some { name := "notes.md", type := "text/plain", content := "# Hi" }) "old"
      = ("# Hi", uploadSuccessToast)
    ∧ ("image/png" ≠ "text/markdown"
      ∧ handleFileUpload (some { name := "photo.png", type := "image/png", content := "x" }) "old"
          = ("old", invalidFileToast)) :=
  ⟨handleFileUpload_scenarios.1 "text/plain" "old",
    by decide,
    handleFileUpload_scenarios.2 "image/png" "old" "x" (by decide)⟩

/-- A concrete unlocked state with both surfaces mounted. -/
def liveState : EditorState :=
  { markdown := "doc", isScrolling := false, editorRef := some ({ scrollTop := 250, scrollHeight := 600, clientHeight := 100 }), previewRef := some ({ scrollTop := 0, scrollHeight := 1100, clientHeight := 100 }), releaseAt := none, now := 4 }

/-- Claim C8: `syncScroll` is idempotent over unchanged measurements.
Starting from an unlocked state, run one pass, let the timer release the
lock, and run a second pass from the same source: both surfaces end up
exactly where the first pass left them — the offset written is a
deterministic function of the four measurements and the source pane. -/
theorem syncScroll_idempotent (src : Pane) (s : EditorState)
    (h : s.isScrolling = false) :
    (syncScroll src ({ syncScroll src s with isScrolling := false })).editorRef
        = (syncScroll src s).editorRef
    ∧ (syncScroll src ({ syncScroll src s with isScrolling := false })).previewRef
        = (syncScroll src s).previewRef := by
  obtain ⟨md, lock, eref, pref, rel, n⟩ := s
  simp only [EditorState.isScrolling] at h
  subst h
  cases src <;> cases eref <;> cases pref <;>
    simp [syncScroll, targetScrollTop]

/-- Witness for `syncScroll_idempotent` at a concrete unlocked state. -/
theorem syncScroll_idempotent_witness :
    liveState.isScrolling = false
    ∧ ((syncScroll Pane.editor ({ syncScroll Pane.editor liveState with isScrolling := false })).editorRef
        = (syncScroll Pane.editor liveState).editorRef
      ∧ (syncScroll Pane.editor ({ syncScroll Pane.editor liveState with isScrolling := false })).previewRef
        = (syncScroll Pane.editor liveState).previewRef) :=
  ⟨rfl, syncScroll_idempotent Pane.editor liveState rfl⟩

/-- Claim C9: whenever the lock is free, a `syncScroll` call sets it and
schedules the release exactly 50 ms later, whether or not either surface
ref is null — the Idle-to-Syncing transition ignores surface availability. -/
theorem syncScroll_sets_lock (src : Pane) (s : EditorState)
    (h : s.isScrolling = false) :
    (syncScroll src s).isScrolling = true
    ∧ (syncScroll src s).releaseAt = some (s.now + 50) := by
  obtain ⟨md, lock, eref, pref, rel, n⟩ := s
  simp only [EditorState.isScrolling] at h
  subst h
  cases src <;> cases eref <;> cases pref <;>
    simp [syncScroll]

/-- Witness for `syncScroll_sets_lock` at a concrete unlocked state whose
editor ref is null. -/
theorem syncScroll_sets_lock_witness :
    missingEditorState.isScrolling = false
    ∧ ((syncScroll Pane.editor missingEditorState).isScrolling = true
      ∧ (syncScroll Pane.editor missingEditorState).releaseAt
          = some (missingEditorState.now + 50)) :=
  ⟨rfl, syncScroll_sets_lock Pane.editor missingEditorState rfl⟩

/-- Claim C10 (frame property): `syncScroll` never touches the markdown
buffer, never writes the source pane's surface, and changes the target
pane's surface in at most its `scrollTop` — its measurements
(`scrollHeight`, `clientHeight`) and its presence are preserved. -/
theorem syncScroll_frame (src : Pane) (s : EditorState) :
    (syncScroll src s).markdown = s.markdown
    ∧ sourceRef src (syncScroll src s) = sourceRef src s
    ∧ Option.map (fun t => (t.scrollHeight, t.clientHeight)) (targetRef src (syncScroll src s))
        = Option.map (fun t => (t.scrollHeight, t.clientHeight)) (targetRef src s) := by
  obtain ⟨md, lock, eref, pref, rel, n⟩ := s
  cases src <;> cases lock <;> cases eref <;> cases pref <;>
    simp [syncScroll, sourceRef, targetRef]
